import Mathlib

/-!
Shallow embedding of the cinema bot source (src/cinema_bot.py): the
extractor that turns a catalog search page into film records, the
per-user session dictionary, the keyboard builder and the
navigation/number-choice/confirm handlers, together with proofs of the
specification's claims about them.

Modelling conventions:
* HTML parsing (BeautifulSoup) is external; a search-results page is
  modelled as the values the source reads out of it (`Card`).
* The network fetch and detail-page parse inside `get_film_ratings`
  (its session.get plus the dd/span extraction) are abstracted as an
  `oracle : String -> String × String` argument; every failure path of
  that code returns the placeholder pair, which the oracle may also
  return, so the abstraction loses nothing the claims need.
* Telegram calls are recorded as `Effect` values; the transport is
  assumed to succeed (the edit-or-recreate retry policy is outside the
  claims).  Untracked acknowledgement messages get no fresh ids; the
  tracked views (film message, list message, confirm message) draw ids
  from `nextMsgId`.
* A single user is modelled: the `user_data` dictionary becomes the
  `session : Option Session` field and aiogram's FSM storage becomes
  the `fsm` / `fsmData` fields.
* Python list indexing, which accepts negative indices (wrapping from
  the end) and raises IndexError out of range, is `pyGet` / `pySet`.
-/

namespace CinemaBot

/-- One parsed result entry: the dict built by `parse_zona_results`.
The `kp` / `imdb` keys that `show_current_film` adds later (the
`result["kp"], result["imdb"] = ...` assignment) are modelled as the
`ratingsCache` field, absent until the first display. -/
structure Film where
  title : String
  year : String
  rating : String
  poster_url : Option String
  watch_link : Option String
  ratingsCache : Option (String × String)
deriving Repr, DecidableEq

/-- Side effects the handlers perform against the outside world. -/
inductive Effect
  | fetch (url : String)        -- HTTP GET of a detail page in get_film_ratings
  | statsBump (title : String)  -- the INSERT .. ON CONFLICT stats update
  | editMedia (id : Nat)        -- bot.edit_message_media on the film message
  | sendPhoto (id : Nat)        -- bot.send_photo of the film message
  | sendList (id : Nat)         -- the list-of-variants message
  | sendConfirm (id : Nat)      -- the tentative-selection photo with yes/no
  | del (id : Nat)              -- bot.delete_message / safe_delete
  | answerText (t : String)     -- message.answer with text t
  | alert (t : String)          -- callback.answer(..., show_alert=True)
  | raised (t : String)         -- an exception escaping the handler
deriving Repr, DecidableEq

/-- The anchor `a.results-item` of one result card, with the values the
source reads from it: `href` (given the `get("href", "")` default), and
the texts of the nested title / year / rating sub-elements, each absent
when the element (or, for rating, its inner span) is missing. -/
structure LinkElem where
  href : String
  titleText : Option String
  yearText : Option String
  ratingText : Option String
deriving Repr, DecidableEq

/-- One `li.results-item-wrap` entry of the results page.  `metaImage`
is the content attribute of the `meta itemprop="image"` element (none
when the element or the attribute is missing); `previewStyleUrl` is the
already-stripped url captured from the background-image pattern of the
preview div's style attribute (none when the div, the attribute or the
match is missing). -/
structure Card where
  link : Option LinkElem
  metaImage : Option String
  previewStyleUrl : Option String
deriving Repr, DecidableEq

/-- A fetched search page: HTTP status, whether the
`div.results-title` marker is present, and the result cards. -/
structure SearchPage where
  status : Nat
  hasResultsTitle : Bool
  cards : List Card
deriving Repr, DecidableEq

/-- Python truthiness of an optional string: None and "" are falsy. -/
def strTruthy : Option String → Bool
  | none => false
  | some s => !(s == "")

/-- Python's `str.startswith`: prefix comparison on the characters. -/
def pyStartsWith (s p : String) : Bool := p.data.isPrefixOf s.data

/-- Poster resolution: the structured meta value first; if that
is falsy, the background-image url provided it is non-empty and not the
no-cover placeholder; finally the protocol-relative rewrite. -/
def resolvePoster (metaImage previewStyleUrl : Option String) : Option String :=
  let p1 := metaImage
  let p2 :=
    if strTruthy p1 then p1
    else
      match previewStyleUrl with
      | some u => if u ≠ "" ∧ u ≠ "/img/nocover.png" then some u else p1
      | none => p1
  match p2 with
  | some u => if u ≠ "" ∧ pyStartsWith u "//" = true then some ("https:" ++ u) else p2
  | none => none

/-- One iteration of the card loop in `parse_zona_results`: cards with
no `a.results-item` anchor are skipped (`continue`); missing sub-fields
degrade to the fixed placeholders. -/
def parseCard (baseUrl : String) (card : Card) : Option Film :=
  match card.link with
  | none => none
  | some link =>
      some
        { title := link.titleText.getD "Без названия"
          year := link.yearText.getD ""
          rating := link.ratingText.getD "N/A"
          poster_url := resolvePoster card.metaImage card.previewStyleUrl
          watch_link := if link.href ≠ "" then some (baseUrl ++ link.href) else none
          ratingsCache := none }

/-- The card loop of `parse_zona_results` over a parsed page. -/
def parse_zona_results (baseUrl : String) (cards : List Card) : List Film :=
  cards.filterMap (parseCard baseUrl)

/-- `parse_zona_results` including its page-level early returns: a
non-200 status or a page without the results-title marker yields the
empty list. -/
def parse_zona_page (baseUrl : String) (p : SearchPage) : List Film :=
  if p.status ≠ 200 then []
  else if p.hasResultsTitle then parse_zona_results baseUrl p.cards
  else []

/-- `get_film_ratings`: a falsy watch link short-circuits to the
placeholder pair; otherwise the detail page is fetched (one `fetch`
effect) and the oracle stands for the fetch-plus-parse, whose failure
paths all return the placeholder pair themselves. -/
def getFilmRatings (oracle : String → String × String) (watch_link : Option String) :
    (String × String) × List Effect :=
  match watch_link with
  | none => (("—", "—"), [])
  | some l => if l = "" then (("—", "—"), []) else (oracle l, [Effect.fetch l])

/-- The rating-cache logic of `show_current_film`: fetch and store the
pair only when the `kp` key is absent. -/
def displayRatings (oracle : String → String × String) (film : Film) :
    Film × (String × String) × List Effect :=
  match film.ratingsCache with
  | none =>
      let r := getFilmRatings oracle film.watch_link
      ({ film with ratingsCache := some r.1 }, r.1, r.2)
  | some p => (film, p, [])

/-- The full title used for the stats table:
`title (year)` when the year is non-empty. -/
def fullTitle (film : Film) : String :=
  film.title ++ (if film.year ≠ "" then " (" ++ film.year ++ ")" else "")

/-- Python list-index resolution: indices in `[0, len)` are used as-is,
indices in `[-len, 0)` wrap from the end, anything else raises. -/
def pyIdx (len : Nat) (i : Int) : Option Nat :=
  if 0 ≤ i ∧ i < (len : Int) then some i.toNat
  else if -(len : Int) ≤ i ∧ i < 0 then some ((len : Int) + i).toNat
  else none

/-- Python `l[i]` on a film list. -/
def pyGet (l : List Film) (i : Int) : Option Film :=
  (pyIdx l.length i).bind fun j => l[j]?

/-- In-place mutation of `l[i]` (the dict stored in the list is mutated
through the `result` reference). Out-of-range writes cannot happen in
the modelled code paths; they leave the list unchanged. -/
def pySet (l : List Film) (i : Int) (f : Film) : List Film :=
  match pyIdx l.length i with
  | some j => l.set j f
  | none => l

/-- One `user_data[user_id]` entry. -/
structure Session where
  results : List Film
  current_index : Int
  query : String
  msg_id : Option Nat
  list_msg_id : Option Nat
deriving Repr, DecidableEq

/-- The inline-keyboard buttons `build_keyboard` can emit. -/
inductive Button
  | prevB
  | watchB (url : Option String)
  | nextB
  | listB
deriving Repr, DecidableEq

/-- `build_keyboard`: prev only when `current > 0`, the watch link
always, next only when `current < total - 1`, and the list row only
when `total > 3 and show_list`. -/
def build_keyboard (current : Int) (total : Nat) (watch : Option String)
    (show_list : Bool) : List Button :=
  (if current > 0 then [Button.prevB] else [])
    ++ [Button.watchB watch]
    ++ (if current < (total : Int) - 1 then [Button.nextB] else [])
    ++ (if total > 3 ∧ show_list = true then [Button.listB] else [])

/-- `show_current_film` on a session: look up the current record
(raising IndexError, i.e. `none`, when the index is out of Python's
range), populate the rating cache if needed, bump the stats counter and
edit the film message in place (or send it fresh when there is none,
consuming a new message id).  Returns the updated session, the next
fresh id, the rating pair shown in the caption, and the effects. -/
def showCurrentFilm (oracle : String → String × String) (s : Session) (fresh : Nat) :
    Option (Session × Nat × (String × String) × List Effect) :=
  match pyGet s.results s.current_index with
  | none => none
  | some film =>
      match s.msg_id with
      | some mid =>
          some ({ s with results := pySet s.results s.current_index (displayRatings oracle film).1 },
                fresh,
                (displayRatings oracle film).2.1,
                (displayRatings oracle film).2.2
                  ++ [Effect.statsBump (fullTitle (displayRatings oracle film).1),
                      Effect.editMedia mid])
      | none =>
          some ({ s with
                    results := pySet s.results s.current_index (displayRatings oracle film).1,
                    msg_id := some fresh },
                fresh + 1,
                (displayRatings oracle film).2.1,
                (displayRatings oracle film).2.2
                  ++ [Effect.statsBump (fullTitle (displayRatings oracle film).1),
                      Effect.sendPhoto fresh])

/-- The aiogram FSM state for the user: no state set (browsing),
`ChooseFilm.waiting_for_number`, or `ChooseFilm.confirming_choice`. -/
inductive FsmState
  | idle
  | waitingForNumber
  | confirmingChoice
deriving Repr, DecidableEq

/-- The FSM storage dict: `user_id` set by `show_list_variants`,
`confirm_msg_id` and `chosen_index` merged in by
`handle_number_choice`. -/
structure FsmData where
  user_id : Option Nat
  confirm_msg_id : Option Nat
  chosen_index : Option Int
deriving Repr, DecidableEq

/-- The empty FSM storage produced by `state.clear()`. -/
def FsmData.empty : FsmData := ⟨none, none, none⟩

/-- Whole-bot state for the single modelled user. -/
structure BotState where
  session : Option Session
  fsm : FsmState
  fsmData : FsmData
  nextMsgId : Nat
deriving Repr, DecidableEq

/-- The id of the single modelled user. -/
def USER_ID : Nat := 0

/-- The tail of the prev/next branches of `handle_navigation` and of
`confirm_yes`: run `show_current_film` on the already-mutated session.
An IndexError escapes the handler, but the mutation to `user_data`
persists because the dict was updated before the raise. -/
def navShow (oracle : String → String × String) (st : BotState) (d : Session) :
    BotState × List Effect :=
  match showCurrentFilm oracle d st.nextMsgId with
  | some r => ({ st with session := some r.1, nextMsgId := r.2.1 }, r.2.2.2)
  | none => ({ st with session := some d }, [Effect.raised "IndexError"])

/-- `show_list_variants`: delete any previous list message, send the
new enumeration (its text content is not needed by the claims), enter
`waiting_for_number` and reset the FSM data to just the user id. -/
def show_list_variants (st : BotState) (data : Session) : BotState × List Effect :=
  let delOld : List Effect :=
    match data.list_msg_id with
    | some old => [Effect.del old]
    | none => []
  ({ st with
      session := some ({ data with list_msg_id := some st.nextMsgId }),
      nextMsgId := st.nextMsgId + 1,
      fsm := FsmState.waitingForNumber,
      fsmData := { user_id := some USER_ID, confirm_msg_id := none, chosen_index := none } },
   delOld ++ [Effect.sendList st.nextMsgId])

/-- The stale-search branch of `handle_number_choice`: notify and
clear the FSM state. -/
def staleNumber (st : BotState) : BotState × List Effect :=
  ({ st with fsm := FsmState.idle, fsmData := FsmData.empty },
   [Effect.answerText "Поиск устарел. Сделай новый запрос."])

/-- `handle_number_choice` on a digit-only message carrying the number
`n`: the stale check (`user_id not in user_data`), then `num = n - 1`;
in range it sends the tentative photo with yes/no buttons whose payload
index is `num`, enters `confirming_choice` and merges
`confirm_msg_id` / `chosen_index` into the FSM data; out of range it
answers the prompt built from `num` and changes nothing. -/
def handle_number_choice (st : BotState) (n : Nat) : BotState × List Effect :=
  match st.fsmData.user_id, st.session with
  | some u, some data =>
      if u = USER_ID then
        if 0 ≤ (n : Int) - 1 ∧ (n : Int) - 1 < (data.results.length : Int) then
          ({ st with
              nextMsgId := st.nextMsgId + 1,
              fsm := FsmState.confirmingChoice,
              fsmData := { st.fsmData with
                            confirm_msg_id := some st.nextMsgId,
                            chosen_index := some ((n : Int) - 1) } },
           [Effect.sendConfirm st.nextMsgId])
        else
          (st, [Effect.answerText ("Введите номер от 1 до " ++ toString ((n : Int) - 1))])
      else staleNumber st
  | _, _ => staleNumber st

/-- `confirm_yes` with the payload index of the pressed button: stale
sessions alert and clear; otherwise the list message is deleted, the
confirm message is deleted, `current_index` is set to the payload index
with no bounds check, the FSM is cleared, and the film is re-shown. -/
def confirm_yes (oracle : String → String × String) (st : BotState) (idx : Int) :
    BotState × List Effect :=
  match st.session with
  | none =>
      ({ st with fsm := FsmState.idle, fsmData := FsmData.empty },
       [Effect.alert "Сессия устарела"])
  | some data =>
      let listDel : Session × List Effect :=
        match data.list_msg_id with
        | some mid => ({ data with list_msg_id := none }, [Effect.del mid])
        | none => (data, [])
      let confDel : List Effect :=
        match st.fsmData.confirm_msg_id with
        | some cid => [Effect.del cid]
        | none => []
      let d2 := { listDel.1 with current_index := idx }
      let r := navShow oracle
        { st with session := some d2, fsm := FsmState.idle, fsmData := FsmData.empty } d2
      (r.1, listDel.2 ++ confDel ++ r.2)

/-- `confirm_no`: delete the confirm message, re-prompt, and return to
`waiting_for_number` (the FSM data is kept, only the state changes). -/
def confirm_no (st : BotState) : BotState × List Effect :=
  let confDel : List Effect :=
    match st.fsmData.confirm_msg_id with
    | some cid => [Effect.del cid]
    | none => []
  ({ st with fsm := FsmState.waitingForNumber },
   confDel ++ [Effect.answerText "Выберите другой номер"])

/-- The navigation actions of the transition table.  `select n` is a
digit-only text message, `confirm idx` / `reject` are the yes / no
confirm-callback buttons whose payload carries `idx`. -/
inductive Action
  | prev
  | next
  | openList
  | closeList
  | select (n : Nat)
  | confirm (idx : Int)
  | reject
deriving Repr, DecidableEq

/-- One dispatched update, following the handler registrations: the
nav callbacks run `handle_navigation` (prev and next mutate the index
unconditionally and re-show; list opens the variants view; close_list
deletes it and clears the FSM), a digit message runs
`handle_number_choice` only under the `waiting_for_number` state filter
(with any other FSM state the table's select transition does not exist:
under `confirming_choice` no handler matches the message, and with no
FSM state the text would instead start a new search, which is session
creation, not an engine transition), and the confirm callbacks run
`confirm_yes` / `confirm_no`. -/
def step (oracle : String → String × String) (st : BotState) (act : Action) :
    BotState × List Effect :=
  match act with
  | Action.prev =>
      match st.session with
      | none => (st, [Effect.alert "Сделай новый поиск!"])
      | some data => navShow oracle st { data with current_index := data.current_index - 1 }
  | Action.next =>
      match st.session with
      | none => (st, [Effect.alert "Сделай новый поиск!"])
      | some data => navShow oracle st { data with current_index := data.current_index + 1 }
  | Action.openList =>
      match st.session with
      | none => (st, [Effect.alert "Сделай новый поиск!"])
      | some data => show_list_variants st data
  | Action.closeList =>
      match st.session with
      | none => (st, [Effect.alert "Сделай новый поиск!"])
      | some data =>
          match data.list_msg_id with
          | some mid =>
              ({ st with
                  session := some ({ data with list_msg_id := none })
                  fsm := FsmState.idle
                  fsmData := FsmData.empty },
               [Effect.del mid])
          | none =>
              ({ st with
                  session := some data
                  fsm := FsmState.idle
                  fsmData := FsmData.empty },
               [])
  | Action.select n =>
      if st.fsm = FsmState.waitingForNumber then handle_number_choice st n else (st, [])
  | Action.confirm idx => confirm_yes oracle st idx
  | Action.reject => confirm_no st

/-- The specification's index invariant on a bot state:
`0 <= currentIndex < len(records)` for the active session, if any. -/
def stInv (st : BotState) : Prop :=
  ∀ d : Session, st.session = some d →
    0 ≤ d.current_index ∧ d.current_index < (d.results.length : Int)

/-- The guards of the transition table, as conditions on the state:
prev requires a positive index, next an index below the last, and a
confirm payload must be in bounds; the remaining actions are
unguarded. -/
def guardOK (st : BotState) (act : Action) : Prop :=
  match act, st.session with
  | Action.prev, some data => 0 < data.current_index
  | Action.next, some data => data.current_index < (data.results.length : Int) - 1
  | Action.confirm idx, some data => 0 ≤ idx ∧ idx < (data.results.length : Int)
  | _, _ => True

/-! Concrete data used by the witnesses and counterexamples. -/

/-- An oracle standing for a detail-page fetch that fails (or finds no
rating structure): `get_film_ratings` then returns the placeholders. -/
def oracle0 : String → String × String := fun _ => ("—", "—")

/-- An oracle standing for a successful detail-page fetch. -/
def oracleW : String → String × String := fun _ => ("8.1", "7.9")

def filmA : Film :=
  { title := "Матрица", year := "1999", rating := "8.5",
    poster_url := none, watch_link := some "B/m0", ratingsCache := none }

def filmB : Film :=
  { title := "Матрица 2", year := "2003", rating := "7.2",
    poster_url := none, watch_link := none, ratingsCache := none }

def sessOne : Session :=
  { results := [filmA], current_index := 0, query := "матрица",
    msg_id := some 1, list_msg_id := none }

def sessTwo : Session :=
  { results := [filmA, filmB], current_index := 0, query := "матрица",
    msg_id := some 1, list_msg_id := none }

def sessFive : Session :=
  { results := [filmA, filmB, filmA, filmB, filmA], current_index := 0,
    query := "матрица", msg_id := some 1, list_msg_id := none }

/-- A state holding a one-record session while a confirm button with
the stale payload index 5 is still pressable. -/
def stBadConfirm : BotState :=
  { session := some sessOne, fsm := FsmState.confirmingChoice,
    fsmData := { user_id := some USER_ID, confirm_msg_id := some 2, chosen_index := some 5 },
    nextMsgId := 3 }

def stNextOK : BotState :=
  { session := some sessTwo, fsm := FsmState.idle, fsmData := FsmData.empty, nextMsgId := 5 }

def stPrevZero : BotState :=
  { session := some sessTwo, fsm := FsmState.idle, fsmData := FsmData.empty, nextMsgId := 7 }

def stConfirm3 : BotState :=
  { session := some sessOne, fsm := FsmState.confirmingChoice,
    fsmData := { user_id := some USER_ID, confirm_msg_id := some 2, chosen_index := some 5 },
    nextMsgId := 4 }

def stSelConf4 : BotState :=
  { session := some sessTwo, fsm := FsmState.waitingForNumber,
    fsmData := { user_id := some USER_ID, confirm_msg_id := none, chosen_index := none },
    nextMsgId := 9 }

def stSel5 : BotState :=
  { session := some sessTwo, fsm := FsmState.waitingForNumber,
    fsmData := { user_id := some USER_ID, confirm_msg_id := none, chosen_index := none },
    nextMsgId := 11 }

def stSel10 : BotState :=
  { session := some sessFive, fsm := FsmState.waitingForNumber,
    fsmData := { user_id := some USER_ID, confirm_msg_id := none, chosen_index := none },
    nextMsgId := 13 }

/-- `filmA` with its rating cache already populated. -/
def filmAC : Film := { filmA with ratingsCache := some ("8.1", "7.9") }

/-- The session produced by the first display of `sessOne` under
`oracleW`. -/
def sess8b : Session := { sessOne with results := [filmAC] }

/-- The effects of that first display. -/
def e8a : List Effect :=
  [Effect.fetch "B/m0", Effect.statsBump "Матрица (1999)", Effect.editMedia 1]

def cardNoLink : Card := { link := none, metaImage := none, previewStyleUrl := none }

def cardOk : Card :=
  { link := some { href := "/m1", titleText := some "Т", yearText := none, ratingText := none },
    metaImage := none, previewStyleUrl := none }

def filmParsed : Film :=
  { title := "Т", year := "", rating := "N/A", poster_url := none,
    watch_link := some "B/m1", ratingsCache := none }

/-- A card whose structured image-metadata attribute carries the
no-cover placeholder path. -/
def cardC9 : Card :=
  { link := some { href := "/x", titleText := some "Т", yearText := none, ratingText := none },
    metaImage := some "/img/nocover.png", previewStyleUrl := none }

/-! Helper lemmas about the embedding. -/

theorem pySet_length (l : List Film) (i : Int) (f : Film) :
    (pySet l i f).length = l.length := by
  unfold pySet
  cases pyIdx l.length i <;> simp

theorem pyIdx_lt {len : Nat} {i : Int} {j : Nat} (h : pyIdx len i = some j) : j < len := by
  unfold pyIdx at h
  split at h
  · next hc =>
      injection h with h'
      omega
  · split at h
    · next hc =>
        injection h with h'
        omega
    · exact absurd h (by simp)

theorem pySet_eq_set {l : List Film} {i : Int} {j : Nat} (f : Film)
    (hj : pyIdx l.length i = some j) : pySet l i f = l.set j f := by
  unfold pySet
  rw [hj]

theorem pyGet_pySet {l : List Film} {i : Int} {j : Nat} (f : Film)
    (hj : pyIdx l.length i = some j) : pyGet (pySet l i f) i = some f := by
  have hlen : (pySet l i f).length = l.length := pySet_length l i f
  rw [pyGet, hlen, hj, pySet_eq_set f hj]
  simp [List.getElem?_set_eq_of_lt, pyIdx_lt hj]

theorem pyGet_pyIdx {l : List Film} {i : Int} {f : Film}
    (h : pyGet l i = some f) : ∃ j, pyIdx l.length i = some j := by
  unfold pyGet at h
  cases hpi : pyIdx l.length i with
  | none => rw [hpi] at h; simp at h
  | some j => exact ⟨j, rfl⟩

theorem displayRatings_cache (oracle : String → String × String) (film : Film) :
    ((displayRatings oracle film).1).ratingsCache = some ((displayRatings oracle film).2.1) := by
  unfold displayRatings
  cases h : film.ratingsCache with
  | none => rfl
  | some p => simpa using h

theorem displayRatings_of_cache {film : Film} {p : String × String}
    (h : film.ratingsCache = some p) (oracle : String → String × String) :
    displayRatings oracle film = (film, p, []) := by
  unfold displayRatings
  rw [h]

theorem showCurrentFilm_shape (oracle : String → String × String) (s : Session) (fresh : Nat)
    (r : Session × Nat × (String × String) × List Effect)
    (h : showCurrentFilm oracle s fresh = some r) :
    r.1.current_index = s.current_index ∧ r.1.results.length = s.results.length ∧
    r.1.list_msg_id = s.list_msg_id := by
  unfold showCurrentFilm at h
  cases hg : pyGet s.results s.current_index with
  | none => rw [hg] at h; simp at h
  | some film =>
      rw [hg] at h
      cases hm : s.msg_id with
      | some mid =>
          rw [hm] at h
          injection h with h'
          subst h'
          exact ⟨rfl, by simp [pySet_length], rfl⟩
      | none =>
          rw [hm] at h
          injection h with h'
          subst h'
          exact ⟨rfl, by simp [pySet_length], rfl⟩

theorem navShow_session (oracle : String → String × String) (st : BotState) (d : Session) :
    ∃ d', (navShow oracle st d).1.session = some d' ∧
      d'.current_index = d.current_index ∧
      d'.results.length = d.results.length ∧
      d'.list_msg_id = d.list_msg_id ∧
      (navShow oracle st d).1.fsm = st.fsm ∧
      (navShow oracle st d).1.fsmData = st.fsmData := by
  unfold navShow
  cases h : showCurrentFilm oracle d st.nextMsgId with
  | none => exact ⟨d, rfl, rfl, rfl, rfl, rfl, rfl⟩
  | some r =>
      obtain ⟨h1, h2, h3⟩ := showCurrentFilm_shape oracle d st.nextMsgId r h
      exact ⟨r.1, rfl, h1, h2, h3, rfl, rfl⟩

theorem handle_number_session (st : BotState) (n : Nat) :
    (handle_number_choice st n).1.session = st.session := by
  unfold handle_number_choice staleNumber
  cases hu : st.fsmData.user_id <;> cases hs : st.session
  all_goals simp only [hu, hs]
  all_goals try split_ifs
  all_goals first | rfl | exact hs

theorem showCurrentFilm_cached (oracle2 : String → String × String) (s : Session) (fresh2 : Nat)
    (film : Film) (p : String × String) (mid : Nat)
    (hg : pyGet s.results s.current_index = some film)
    (hc : film.ratingsCache = some p)
    (hm : s.msg_id = some mid) :
    showCurrentFilm oracle2 s fresh2 =
      some ({ s with results := pySet s.results s.current_index film }, fresh2, p,
            [Effect.statsBump (fullTitle film), Effect.editMedia mid]) := by
  unfold showCurrentFilm
  rw [hg, hm]
  simp [displayRatings_of_cache hc]

/-! Claim theorems. -/

/-- Claim C1, counterexample: the invariant `0 <= currentIndex <
len(records)` does NOT survive every received transition-table action:
a `confirm` whose payload index is 5, pressed against an active
one-record session (a button minted under an earlier, longer session),
leaves `currentIndex = 5`, out of bounds. -/
theorem confirm_payload_breaks_invariant :
    stInv stBadConfirm ∧ ¬ stInv (step oracle0 stBadConfirm (Action.confirm 5)).1 := by
  constructor
  · intro d hd
    injection hd with h
    subst h
    exact ⟨by decide, by decide⟩
  · intro h
    have hb := h _ rfl
    have hn : ¬ ((5 : Int) < ((1 : Nat) : Int)) := by decide
    exact hn hb.2

/-- Claim C1, amended: the index invariant is preserved by every
transition whose table guard holds on the current state — prev needs
`currentIndex > 0`, next needs `currentIndex < len - 1`, confirm needs
an in-bounds payload, and the remaining actions are unguarded.  The
handlers themselves do not check these guards, so the unguarded
receptions refuting the original claim fall outside this theorem. -/
theorem guarded_step_preserves_index_invariant
    (oracle : String → String × String) (st : BotState) (act : Action)
    (hinv : stInv st) (hg : guardOK st act) :
    stInv (step oracle st act).1 := by
  cases act with
  | prev =>
      cases hs : st.session with
      | none => simp only [step, hs]; exact hinv
      | some data =>
          simp only [step, hs]
          obtain ⟨d', hsess, hci, hlen, hlist, hfsm, hfd⟩ :=
            navShow_session oracle st { data with current_index := data.current_index - 1 }
          intro d hd
          rw [hsess] at hd
          injection hd with hd'
          subst hd'
          obtain ⟨hb1, hb2⟩ := hinv data hs
          have hgp : 0 < data.current_index := by simpa only [guardOK, hs] using hg
          have hci' : d'.current_index = data.current_index - 1 := hci
          have hlen' : d'.results.length = data.results.length := hlen
          exact ⟨by omega, by omega⟩
  | next =>
      cases hs : st.session with
      | none => simp only [step, hs]; exact hinv
      | some data =>
          simp only [step, hs]
          obtain ⟨d', hsess, hci, hlen, hlist, hfsm, hfd⟩ :=
            navShow_session oracle st { data with current_index := data.current_index + 1 }
          intro d hd
          rw [hsess] at hd
          injection hd with hd'
          subst hd'
          obtain ⟨hb1, hb2⟩ := hinv data hs
          have hgp : data.current_index < (data.results.length : Int) - 1 := by
            simpa only [guardOK, hs] using hg
          have hci' : d'.current_index = data.current_index + 1 := hci
          have hlen' : d'.results.length = data.results.length := hlen
          exact ⟨by omega, by omega⟩
  | openList =>
      cases hs : st.session with
      | none => simp only [step, hs]; exact hinv
      | some data =>
          simp only [step, hs, show_list_variants]
          intro d hd
          injection hd with hd'
          subst hd'
          exact hinv data hs
  | closeList =>
      cases hs : st.session with
      | none => simp only [step, hs]; exact hinv
      | some data =>
          cases hl : data.list_msg_id with
          | some mid =>
              simp only [step, hs, hl]
              intro d hd
              injection hd with hd'
              subst hd'
              exact hinv data hs
          | none =>
              simp only [step, hs, hl]
              intro d hd
              injection hd with hd'
              subst hd'
              exact hinv data hs
  | select n =>
      by_cases hw : st.fsm = FsmState.waitingForNumber
      · simp only [step, if_pos hw]
        intro d hd
        rw [handle_number_session] at hd
        exact hinv d hd
      · simp only [step, if_neg hw]
        exact hinv
  | confirm idx =>
      cases hs : st.session with
      | none =>
          simp only [step, confirm_yes, hs]
          intro d hd
          simp at hd
      | some data =>
          have hgc : 0 ≤ idx ∧ idx < (data.results.length : Int) := by
            simpa only [guardOK, hs] using hg
          simp only [step, confirm_yes, hs]
          cases hl : data.list_msg_id with
          | some mid =>
              simp only [hl]
              intro d hd
              obtain ⟨d', hsess, hci, hlen, hlist, hfsm, hfd⟩ :=
                navShow_session oracle
                  { st with
                      session := some ({ data with current_index := idx, list_msg_id := none })
                      fsm := FsmState.idle
                      fsmData := FsmData.empty }
                  ({ data with current_index := idx, list_msg_id := none })
              have hdd := hsess.symm.trans hd
              injection hdd with hdd'
              subst hdd'
              have hci' : d'.current_index = idx := hci
              have hlen' : d'.results.length = data.results.length := hlen
              exact ⟨by omega, by omega⟩
          | none =>
              simp only [hl]
              intro d hd
              obtain ⟨d', hsess, hci, hlen, hlist, hfsm, hfd⟩ :=
                navShow_session oracle
                  { st with
                      session := some ({ data with current_index := idx, list_msg_id := none })
                      fsm := FsmState.idle
                      fsmData := FsmData.empty }
                  ({ data with current_index := idx, list_msg_id := none })
              have hdd := hsess.symm.trans hd
              injection hdd with hdd'
              subst hdd'
              have hci' : d'.current_index = idx := hci
              have hlen' : d'.results.length = data.results.length := hlen
              exact ⟨by omega, by omega⟩
  | reject =>
      simp only [step, confirm_no]
      intro d hd
      exact hinv d hd

/-- Witness for the amended C1 theorem: a guarded `next` on a fresh
two-record session keeps the invariant. -/
theorem guarded_step_preserves_index_invariant_witness :
    stInv (step oracle0 stNextOK Action.next).1 :=
  guarded_step_preserves_index_invariant oracle0 stNextOK Action.next
    (by intro d hd
        injection hd with h
        subst h
        exact ⟨by decide, by decide⟩)
    ((by decide : (0 : Int) < ((2 : Nat) : Int) - 1))

/-- Claim C2, counterexample: a `prev` received while `currentIndex =
0` does NOT leave the session unchanged — the handler decrements
unconditionally, so the index becomes -1 (and Python's negative
indexing then displays the last record). -/
theorem prev_at_zero_changes_session :
    stPrevZero.session.map Session.current_index = some 0 ∧
    (step oracle0 stPrevZero Action.prev).1.session.map Session.current_index = some (-1) :=
  ⟨rfl, rfl⟩

/-- Claim C2, amended: the guard lives in the view model, not the
handler — the keyboard built at `currentIndex = 0` carries no prev
control and the keyboard built at `currentIndex = len - 1` carries no
next control, so the Browsing view cannot emit the rejected actions;
but a prev callback that is received anyway (e.g. from a stale
keyboard) is applied unconditionally, decrementing the index. -/
theorem prev_next_guard_is_keyboard_only
    (total : Nat) (watch : Option String) (sl : Bool)
    (oracle : String → String × String) (st : BotState) (data : Session)
    (hs : st.session = some data) :
    Button.prevB ∉ build_keyboard 0 total watch sl ∧
    Button.nextB ∉ build_keyboard ((total : Int) - 1) total watch sl ∧
    ∃ d', (step oracle st Action.prev).1.session = some d' ∧
      d'.current_index = data.current_index - 1 := by
  refine ⟨?_, ?_, ?_⟩
  · unfold build_keyboard
    split_ifs <;> simp_all
  · unfold build_keyboard
    split_ifs <;> simp_all
  · simp only [step, hs]
    obtain ⟨d', hsess, hci, hlen, hlist, hfsm, hfd⟩ :=
      navShow_session oracle st { data with current_index := data.current_index - 1 }
    exact ⟨d', hsess, hci⟩

/-- Witness for the amended C2 theorem at a concrete two-record
session sitting at index 0. -/
theorem prev_next_guard_is_keyboard_only_witness :
    Button.prevB ∉ build_keyboard 0 2 (some "B/m0") true ∧
    Button.nextB ∉ build_keyboard ((2 : Int) - 1) 2 (some "B/m0") true ∧
    ∃ d', (step oracle0 stPrevZero Action.prev).1.session = some d' ∧
      d'.current_index = sessTwo.current_index - 1 :=
  prev_next_guard_is_keyboard_only 2 (some "B/m0") true oracle0 stPrevZero sessTwo rfl

/-- Claim C3: `confirm_yes` writes the payload index of the pressed
button straight into `currentIndex`, for every active session and
every payload value, with no bounds check — so a button minted under a
superseded session can leave the index past the end of the current
result list (the witness does exactly that). -/
theorem confirm_sets_index_unchecked
    (oracle : String → String × String) (st : BotState) (data : Session) (idx : Int)
    (hs : st.session = some data) :
    ∃ d', (step oracle st (Action.confirm idx)).1.session = some d' ∧
      d'.current_index = idx := by
  simp only [step, confirm_yes, hs]
  cases hl : data.list_msg_id with
  | some mid =>
      simp only [hl]
      obtain ⟨d', hsess, hci, hlen, hlist, hfsm, hfd⟩ :=
        navShow_session oracle
          { st with
              session := some ({ data with current_index := idx, list_msg_id := none })
              fsm := FsmState.idle
              fsmData := FsmData.empty }
          ({ data with current_index := idx, list_msg_id := none })
      exact ⟨d', hsess, hci⟩
  | none =>
      simp only [hl]
      obtain ⟨d', hsess, hci, hlen, hlist, hfsm, hfd⟩ :=
        navShow_session oracle
          { st with
              session := some ({ data with current_index := idx, list_msg_id := none })
              fsm := FsmState.idle
              fsmData := FsmData.empty }
          ({ data with current_index := idx, list_msg_id := none })
      exact ⟨d', hsess, hci⟩

/-- Witness for C3: against a one-record session, a confirm payload of
5 sets `currentIndex = 5`, past the end. -/
theorem confirm_sets_index_unchecked_witness :
    ∃ d', (step oracle0 stConfirm3 (Action.confirm 5)).1.session = some d' ∧
      d'.current_index = 5 :=
  confirm_sets_index_unchecked oracle0 stConfirm3 sessOne 5 rfl

/-- Claim C4: in `waiting_for_number` with an active session, a
selection `n` with `1 <= n <= len(records)` stores `n - 1` as the
tentative choice (the payload of the created confirm button), and the
subsequent confirm with that payload sets `currentIndex = n - 1`,
clears the FSM back to Browsing, leaves the list view discarded
(`list_msg_id = none`) and deletes the tentative confirm message. -/
theorem select_then_confirm_browsing
    (oracle : String → String × String) (st : BotState) (data : Session) (n : Nat)
    (hw : st.fsm = FsmState.waitingForNumber)
    (hu : st.fsmData.user_id = some USER_ID)
    (hs : st.session = some data)
    (h1 : 1 ≤ n) (h2 : n ≤ data.results.length) :
    (step oracle st (Action.select n)).1.fsmData.chosen_index = some ((n : Int) - 1) ∧
    ∃ d',
      (step oracle (step oracle st (Action.select n)).1
          (Action.confirm ((n : Int) - 1))).1.session = some d' ∧
      d'.current_index = (n : Int) - 1 ∧
      d'.list_msg_id = none ∧
      (step oracle (step oracle st (Action.select n)).1
          (Action.confirm ((n : Int) - 1))).1.fsm = FsmState.idle ∧
      Effect.del st.nextMsgId ∈
        (step oracle (step oracle st (Action.select n)).1
            (Action.confirm ((n : Int) - 1))).2 := by
  have hrange : 0 ≤ (n : Int) - 1 ∧ (n : Int) - 1 < (data.results.length : Int) := by omega
  have hsel : step oracle st (Action.select n) =
      ({ st with
          nextMsgId := st.nextMsgId + 1,
          fsm := FsmState.confirmingChoice,
          fsmData := { st.fsmData with
                        confirm_msg_id := some st.nextMsgId,
                        chosen_index := some ((n : Int) - 1) } },
       [Effect.sendConfirm st.nextMsgId]) := by
    simp only [step, if_pos hw, handle_number_choice, hu, hs, if_pos rfl, if_true,
      if_pos hrange]
  rw [hsel]
  refine ⟨rfl, ?_⟩
  simp only [step, confirm_yes, hs]
  cases hl : data.list_msg_id with
  | some mid =>
      simp only [hl]
      obtain ⟨d', hsess, hci, hlen, hlist, hfsm, hfd⟩ :=
        navShow_session oracle
          { st with
              session := some ({ data with current_index := (n : Int) - 1, list_msg_id := none })
              fsm := FsmState.idle
              fsmData := FsmData.empty
              nextMsgId := st.nextMsgId + 1 }
          ({ data with current_index := (n : Int) - 1, list_msg_id := none })
      refine ⟨d', hsess, hci, ?_, hfsm, ?_⟩
      · rw [hlist]
      · simp [List.mem_append]
  | none =>
      simp only [hl]
      obtain ⟨d', hsess, hci, hlen, hlist, hfsm, hfd⟩ :=
        navShow_session oracle
          { st with
              session := some ({ data with current_index := (n : Int) - 1, list_msg_id := none })
              fsm := FsmState.idle
              fsmData := FsmData.empty
              nextMsgId := st.nextMsgId + 1 }
          ({ data with current_index := (n : Int) - 1, list_msg_id := none })
      refine ⟨d', hsess, hci, ?_, hfsm, ?_⟩
      · rw [hlist]
      · simp [List.mem_append]

/-- Witness for C4: selecting 2 of a two-record session and confirming
lands on index 1, Browsing, list gone, confirm message deleted. -/
theorem select_then_confirm_browsing_witness :
    (step oracle0 stSelConf4 (Action.select 2)).1.fsmData.chosen_index = some ((2 : Int) - 1) ∧
    ∃ d',
      (step oracle0 (step oracle0 stSelConf4 (Action.select 2)).1
          (Action.confirm ((2 : Int) - 1))).1.session = some d' ∧
      d'.current_index = (2 : Int) - 1 ∧
      d'.list_msg_id = none ∧
      (step oracle0 (step oracle0 stSelConf4 (Action.select 2)).1
          (Action.confirm ((2 : Int) - 1))).1.fsm = FsmState.idle ∧
      Effect.del stSelConf4.nextMsgId ∈
        (step oracle0 (step oracle0 stSelConf4 (Action.select 2)).1
            (Action.confirm ((2 : Int) - 1))).2 :=
  select_then_confirm_browsing oracle0 stSelConf4 sessTwo 2 rfl rfl rfl
    (by decide) (by decide)

/-- Claim C5: a numeric selection outside `[1, len(records)]` in the
`waiting_for_number` state mutates nothing — the bot state is returned
exactly as it was — and the only output is a re-prompt message. -/
theorem out_of_range_select_no_mutation
    (oracle : String → String × String) (st : BotState) (data : Session) (n : Nat)
    (hw : st.fsm = FsmState.waitingForNumber)
    (hu : st.fsmData.user_id = some USER_ID)
    (hs : st.session = some data)
    (hout : ¬ (1 ≤ n ∧ n ≤ data.results.length)) :
    (step oracle st (Action.select n)).1 = st ∧
    ∃ t, (step oracle st (Action.select n)).2 = [Effect.answerText t] := by
  have hcond : ¬ (0 ≤ (n : Int) - 1 ∧ (n : Int) - 1 < (data.results.length : Int)) := by
    omega
  simp only [step, if_pos hw, handle_number_choice, hu, hs, if_pos rfl, if_neg hcond]
  exact ⟨rfl, _, rfl⟩

/-- Witness for C5: selecting 99 against a two-record session leaves
the state untouched. -/
theorem out_of_range_select_no_mutation_witness :
    (step oracle0 stSel5 (Action.select 99)).1 = stSel5 ∧
    ∃ t, (step oracle0 stSel5 (Action.select 99)).2 = [Effect.answerText t] :=
  out_of_range_select_no_mutation oracle0 stSel5 sessTwo 99 rfl rfl rfl (by decide)

/-- Claim C6: the keyboard built for the Browsing view (with
`show_list` at its default) carries the list control exactly when the
session has more than three records; with three or fewer the control
is absent, so open-list cannot be emitted from the view. -/
theorem list_control_iff_more_than_three
    (current : Int) (total : Nat) (watch : Option String) :
    Button.listB ∈ build_keyboard current total watch true ↔ 3 < total := by
  unfold build_keyboard
  split_ifs <;> simp_all

/-- Claim C7: every film in the extractor's output comes from a card
that has the `a.results-item` link element — cards without it are
skipped by the `continue`. -/
theorem parsed_records_have_link (baseUrl : String) (cards : List Card) (f : Film)
    (h : f ∈ parse_zona_results baseUrl cards) :
    ∃ c ∈ cards, c.link.isSome ∧ parseCard baseUrl c = some f := by
  unfold parse_zona_results at h
  rw [List.mem_filterMap] at h
  obtain ⟨c, hc, hp⟩ := h
  refine ⟨c, hc, ?_, hp⟩
  cases hl : c.link with
  | none =>
      unfold parseCard at hp
      rw [hl] at hp
      simp at hp
  | some l => simp [hl]

/-- Witness for C7: of a link-less card and a linked card, only the
linked one yields the parsed record. -/
theorem parsed_records_have_link_witness :
    ∃ c ∈ [cardNoLink, cardOk], c.link.isSome ∧ parseCard "B" c = some filmParsed :=
  parsed_records_have_link "B" [cardNoLink, cardOk] filmParsed (by decide)

/-- Claim C8: after any display of the current record (which populates
the rating cache), a second display of the same record — under any
oracle, i.e. regardless of what a new fetch would return — performs no
fetch at all and shows the same rating pair as the first display. -/
theorem ratings_cached_after_first_display
    (oracle oracle2 : String → String × String) (s : Session) (fresh fresh2 : Nat)
    (s1 : Session) (f1 : Nat) (p1 : String × String) (e1 : List Effect)
    (h : showCurrentFilm oracle s fresh = some (s1, f1, p1, e1)) :
    ∃ s2 f2 e2, showCurrentFilm oracle2 s1 fresh2 = some (s2, f2, p1, e2) ∧
      ∀ u, Effect.fetch u ∉ e2 := by
  unfold showCurrentFilm at h
  cases hg : pyGet s.results s.current_index with
  | none => rw [hg] at h; simp at h
  | some film =>
      rw [hg] at h
      obtain ⟨j, hjj⟩ := pyGet_pyIdx hg
      cases hm : s.msg_id with
      | some mid =>
          rw [hm] at h
          injection h with h'
          injection h' with hA h'
          injection h' with hB h'
          injection h' with hC hD
          subst hC
          have hg2 : pyGet s1.results s1.current_index =
              some ((displayRatings oracle film).1) := by
            rw [← hA]
            exact pyGet_pySet ((displayRatings oracle film).1) hjj
          have hc2 : ((displayRatings oracle film).1).ratingsCache =
              some ((displayRatings oracle film).2.1) :=
            displayRatings_cache oracle film
          have hm2 : s1.msg_id = some mid := by
            rw [← hA]
          have hres := showCurrentFilm_cached oracle2 s1 fresh2
            ((displayRatings oracle film).1) ((displayRatings oracle film).2.1) mid
            hg2 hc2 hm2
          refine ⟨_, _, _, hres, ?_⟩
          intro u
          simp
      | none =>
          rw [hm] at h
          injection h with h'
          injection h' with hA h'
          injection h' with hB h'
          injection h' with hC hD
          subst hC
          have hg2 : pyGet s1.results s1.current_index =
              some ((displayRatings oracle film).1) := by
            rw [← hA]
            exact pyGet_pySet ((displayRatings oracle film).1) hjj
          have hc2 : ((displayRatings oracle film).1).ratingsCache =
              some ((displayRatings oracle film).2.1) :=
            displayRatings_cache oracle film
          have hm2 : s1.msg_id = some fresh := by
            rw [← hA]
          have hres := showCurrentFilm_cached oracle2 s1 fresh2
            ((displayRatings oracle film).1) ((displayRatings oracle film).2.1) fresh
            hg2 hc2 hm2
          refine ⟨_, _, _, hres, ?_⟩
          intro u
          simp

/-- Witness for C8: a first display under a succeeding oracle caches
("8.1", "7.9"); the second display, under an oracle standing for a
failing fetch, still shows the cached pair and fetches nothing. -/
theorem ratings_cached_after_first_display_witness :
    ∃ s2 f2 e2, showCurrentFilm oracle0 sess8b 4 = some (s2, f2, ("8.1", "7.9"), e2) ∧
      ∀ u, Effect.fetch u ∉ e2 :=
  ratings_cached_after_first_display oracleW oracle0 sessOne 3 4 sess8b 3
    ("8.1", "7.9") e8a (by decide)

/-- Claim C9, counterexample: a record whose structured image-metadata
attribute equals the no-cover placeholder keeps it verbatim as its
poster URL — the placeholder is NOT turned into `none` on this path. -/
theorem nocover_meta_kept :
    (parseCard "B" cardC9).map Film.poster_url = some (some "/img/nocover.png") := by
  decide

/-- Claim C9, amended: a protocol-relative poster URL from either
source is rewritten to an explicit https URL, and the no-cover
placeholder is discarded only on the background-image fallback path
(yielding whatever the structured metadata produced — `none` when it
produced nothing). -/
theorem poster_normalization_amended
    (u : String) (meta style : Option String)
    (h1 : pyStartsWith u "//" = true)
    (h2 : strTruthy meta = false) :
    resolvePoster (some u) style = some ("https:" ++ u) ∧
    resolvePoster meta (some u) = some ("https:" ++ u) ∧
    resolvePoster meta (some "/img/nocover.png") = meta := by
  have hne : u ≠ "" := by
    intro he
    subst he
    exact absurd h1 (by decide)
  have hnc : u ≠ "/img/nocover.png" := by
    intro he
    subst he
    exact absurd h1 (by decide)
  refine ⟨?_, ?_, ?_⟩
  · simp [resolvePoster, strTruthy, hne, h1]
  · simp [resolvePoster, h2, hne, hnc, h1]
  · cases meta with
    | none => decide
    | some m =>
        have hm : m = "" := by
          by_contra hmne
          simp [strTruthy, hmne] at h2
        subst hm
        decide

/-- Witness for the amended C9 theorem: the spec's own example URL is
normalized, and the placeholder arriving through the style fallback
yields no poster. -/
theorem poster_normalization_amended_witness :
    resolvePoster (some "//img.example.com/x.jpg") none = some "https://img.example.com/x.jpg" ∧
    resolvePoster none (some "//img.example.com/x.jpg") = some "https://img.example.com/x.jpg" ∧
    resolvePoster none (some "/img/nocover.png") = none := by
  obtain ⟨a, b, c⟩ :=
    poster_normalization_amended "//img.example.com/x.jpg" none none (by decide) (by decide)
  refine ⟨?_, ?_, c⟩
  · rw [a]
    decide
  · rw [b]
    decide

/-- Claim C10: the out-of-range re-prompt names the range `1` to the
entered number minus one — computed from the user's own input, not
from the number of records. -/
theorem out_of_range_prompt_from_input
    (oracle : String → String × String) (st : BotState) (data : Session) (n : Nat)
    (hw : st.fsm = FsmState.waitingForNumber)
    (hu : st.fsmData.user_id = some USER_ID)
    (hs : st.session = some data)
    (hout : ¬ (1 ≤ n ∧ n ≤ data.results.length)) :
    (step oracle st (Action.select n)).2 =
      [Effect.answerText ("Введите номер от 1 до " ++ toString ((n : Int) - 1))] := by
  have hcond : ¬ (0 ≤ (n : Int) - 1 ∧ (n : Int) - 1 < (data.results.length : Int)) := by
    omega
  simp only [step, if_pos hw, handle_number_choice, hu, hs, if_pos rfl, if_true,
    if_neg hcond]

/-- Witness for C10: entering 99 against a five-record session prompts
for a number from 1 to 98. -/
theorem out_of_range_prompt_from_input_witness :
    (step oracle0 stSel10 (Action.select 99)).2 =
      [Effect.answerText "Введите номер от 1 до 98"] := by
  have h := out_of_range_prompt_from_input oracle0 stSel10 sessFive 99 rfl rfl rfl (by decide)
  rw [h]
  rfl

end CinemaBot
